import Mathlib

/-!
Shallow embedding of `src/DevOpsAgent/src/opsbot.py` (the OpsBot incident
control loop) and proofs about the claims of its specification.

Modelling conventions:
* Python floats become `ℚ` (only order/arithmetic comparisons matter here).
* The JSON record written by `update_ui_data` becomes an association list
  `List (String × JVal)`; Python `dict.update` becomes `setKey` (replace in
  place, append when absent).
* Side-effecting calls (publishing a status record, calling the diagnostic
  engine, running `docker restart`, Slack notification, SQLite insert,
  recording `last_spike_time`) become an explicit event trace
  (`List Event`) emitted in program order.
* External outcomes (Prometheus results, randomness, exceptions, OpenAI
  responses, `docker restart` success) are inputs to the embedded
  functions, one constructor per branch the Python code distinguishes.
-/

/-- JSON-representable values appearing in the UI status record. -/
inductive JVal where
  | str (s : String) : JVal
  | num (q : ℚ) : JVal
  | bool (b : Bool) : JVal
deriving DecidableEq

/-- Configuration globals of opsbot.py (lines 16-17): `THRESHOLD` and
`CONTAINER_NAME`. -/
structure Config where
  threshold : ℚ
  containerName : String
deriving DecidableEq

/-- Environment lookup, modelling `os.getenv`. -/
def getenv (env : List (String × String)) (k : String) : Option String :=
  env.lookup k

/-- Parse a nonempty digit string (Python `int` on the values this
program reads; sign handling is irrelevant to the configuration claims
since defaults and tests only use plain digit strings). -/
def parseDigitsAux : List Char → ℕ → Option ℕ
  | [], acc => some acc
  | c :: rest, acc =>
      if c.isDigit then parseDigitsAux rest (acc * 10 + (c.toNat - 48))
      else none

/-- Python `int(s)` restricted to unsigned decimal strings; `none` when
malformed (where Python would raise). -/
def pyInt (s : String) : Option Int :=
  match s.data with
  | [] => none
  | c :: rest =>
      match parseDigitsAux (c :: rest) 0 with
      | some n => some (n : Int)
      | none => none

/-- `THRESHOLD = int(os.getenv("CPU_THRESHOLD", "80"))` (opsbot.py line 16). -/
def THRESHOLD (env : List (String × String)) : Int :=
  (pyInt ((getenv env "CPU_THRESHOLD").getD "80")).getD 0

/-- `CONTAINER_NAME = os.getenv("CONTAINER_NAME", "test-container")`
(opsbot.py line 17). -/
def CONTAINER_NAME (env : List (String × String)) : String :=
  (getenv env "CONTAINER_NAME").getD "test-container"

/-- `MONITORING_INTERVAL = 30` (opsbot.py line 20): a hardcoded constant,
not read from the environment. -/
def MONITORING_INTERVAL : ℕ := 30

/-- The cooldown bound `120` hardcoded in `continuous_monitoring`
(opsbot.py line 363: `if current_time - last_spike_time > 120`); not read
from the environment. -/
def cooldownLiteral : ℚ := 120

/-- The configuration actually assembled from the environment by
opsbot.py lines 16-17. -/
def configFromEnv (env : List (String × String)) : Config :=
  ⟨(THRESHOLD env : ℚ), CONTAINER_NAME env⟩

/-- Replace the value at key `k` (keeping position) or append `(k, v)`:
Python `dict.update` for a single key on an association list. -/
def setKey : List (String × JVal) → String → JVal → List (String × JVal)
  | [], k, v => [(k, v)]
  | (k', v') :: rest, k, v =>
      if k' = k then (k, v) :: rest else (k', v') :: setKey rest k v

/-- `update_ui_data` (opsbot.py lines 295-312): merges `last_updated`,
`container_name`, `threshold`, `monitoring_active` into the caller's dict
(overwriting any caller-supplied value for those keys, since `dict.update`
is applied last) and returns the record that is written to the UI JSON
file. `running` is the global shutdown flag, `ctime` the `time.ctime()`
string. -/
def update_ui_data (cfg : Config) (running : Bool) (ctime : String)
    (data : List (String × JVal)) : List (String × JVal) :=
  setKey (setKey (setKey (setKey data
    "last_updated" (JVal.str ctime))
    "container_name" (JVal.str cfg.containerName))
    "threshold" (JVal.num cfg.threshold))
    "monitoring_active" (JVal.bool running)

/-- Observable actions of one run, in program order. -/
inductive Event where
  | publishStatus (data : List (String × JVal)) : Event
  | diagnose : Event
  | remediateCall (container : String) : Event
  | notifyCall (cause action : String) : Event
  | logIncident (cause action : String) (cpu : ℚ) : Event
  | setLastSpikeTime (t : ℚ) : Event
deriving DecidableEq

/-- Events belonging to the incident-handling path (diagnosis,
remediation, notification, incident persistence). -/
def isHandlingEvent : Event → Bool
  | Event.diagnose => true
  | Event.remediateCall _ => true
  | Event.notifyCall _ _ => true
  | Event.logIncident _ _ _ => true
  | _ => false

/-- Bool test for the cooldown-update event. -/
def isSetLast : Event → Bool
  | Event.setLastSpikeTime _ => true
  | _ => false

/-- Decidable substring search on character lists. -/
def containsSub (needle : List Char) : List Char → Bool
  | [] => needle.isEmpty
  | c :: rest => needle.isPrefixOf (c :: rest) || containsSub needle rest

/-- `needle in hay` on strings, Python's substring containment. -/
def strContains (hay needle : String) : Bool :=
  containsSub needle.data hay.data

/-- A single quote character, used in the success action text
(`f"Container '{CONTAINER_NAME}' restarted successfully"`). -/
def sQuote : String := String.singleton (Char.ofNat 39)

/-- Outcome of the body of `analyze_logs` (opsbot.py lines 129-186), one
constructor per branch: any exception in the try block, an OpenAI answer
(API key set), or the keyword classifier over the log text (no API key). -/
inductive AnalyzeOutcome where
  | exn (msg : String) : AnalyzeOutcome
  | api (response : String) : AnalyzeOutcome
  | sim (logs : String) : AnalyzeOutcome

/-- `analyze_logs` (opsbot.py lines 129-186). Every exception is caught
and turned into the string `"Log analysis failed: " ++ str(e)`
(line 186); without an API key a keyword classifier over the lowercased
logs is used (lines 171-179). -/
def analyze_logs : AnalyzeOutcome → String
  | AnalyzeOutcome.exn msg => "Log analysis failed: " ++ msg
  | AnalyzeOutcome.api response => response
  | AnalyzeOutcome.sim logs =>
      if strContains logs.toLower "worker processes" then
        "Multiple worker processes causing CPU overload"
      else if strContains logs.toLower "memory pressure" then
        "Memory pressure leading to excessive swapping"
      else if strContains logs.toLower "network connections" then
        "High network activity overwhelming system"
      else
        "Process inefficiency in container workload"

/-- Inputs of `get_cpu_usage` (opsbot.py lines 59-107): the Prometheus
connection state, per-query outcomes, the raw-metric fallback, and the
random draws of the simulation branch. A query outcome is `none` when the
query raised or returned an empty result, `some v` when a float `v` was
extracted. -/
structure MetricInput where
  promAvailable : Bool
  queryResults : List (Option ℚ)
  rawOk : Bool
  rawTimeMod : ℚ
  rawUniform : ℚ
  simSin : ℚ
  simNoise : ℚ
  simSpike : Bool
  simSpikeVal : ℚ

/-- The query loop of `get_cpu_usage` (lines 70-78): return the first
query value passing the sanity check `0 <= cpu_usage <= 100`; skip failed
queries and out-of-range values. -/
def firstAccepted : List (Option ℚ) → Option ℚ
  | [] => none
  | none :: rest => firstAccepted rest
  | some v :: rest =>
      if 0 ≤ v ∧ v ≤ 100 then some v else firstAccepted rest

/-- The simulation branch of `get_cpu_usage` (lines 92-107):
`base_usage = 20 + 15 * sin(time_factor / 50)`, `noise = uniform(-8, 12)`,
a spike draw `uniform(85, 95)` with probability 0.1, otherwise
`max(5, min(95, base_usage + noise))`. The sine value and random draws are
inputs. -/
def simulateCpu (inp : MetricInput) : ℚ :=
  if inp.simSpike then inp.simSpikeVal
  else max 5 (min 95 ((20 + 15 * inp.simSin) + inp.simNoise))

/-- `get_cpu_usage` (opsbot.py lines 59-107). With Prometheus available it
tries the three CPU queries (sanity-checked), then the raw
`node_cpu_seconds_total` fallback `min(base_usage + uniform(-5, 15), 95)`
with `base_usage = 15 + time % 30`, and otherwise (or with no Prometheus)
the simulation branch. -/
def get_cpu_usage (inp : MetricInput) : ℚ :=
  if inp.promAvailable then
    match firstAccepted inp.queryResults with
    | some v => v
    | none =>
        if inp.rawOk then min ((15 + inp.rawTimeMod) + inp.rawUniform) 95
        else simulateCpu inp
  else simulateCpu inp

/-- Outcome of the sampling step seen by `monitor_cpu_once`: either
`get_cpu_usage` returned a value, or something in the try block raised. -/
inductive SampleOutcome where
  | ok (v : ℚ) : SampleOutcome
  | exn (msg : String) : SampleOutcome

/-- `monitor_cpu_once` (opsbot.py lines 109-126): publishes
"Spike Detected"/"Normal" with the sampled value and returns
`(spike?, value)`; any exception is caught, a "Monitoring Error" record
with value 0 is published, and `(False, 0)` is returned. -/
def monitor_cpu_once (cfg : Config) (ctime : String) (s : SampleOutcome) :
    (Bool × ℚ) × List Event :=
  match s with
  | SampleOutcome.ok v =>
      if v > cfg.threshold then
        ((true, v), [Event.publishStatus (update_ui_data cfg true ctime
          [("cpu_usage", JVal.num v), ("status", JVal.str "Spike Detected")])])
      else
        ((false, v), [Event.publishStatus (update_ui_data cfg true ctime
          [("cpu_usage", JVal.num v), ("status", JVal.str "Normal")])])
  | SampleOutcome.exn _ =>
      ((false, 0), [Event.publishStatus (update_ui_data cfg true ctime
        [("cpu_usage", JVal.num 0), ("status", JVal.str "Monitoring Error")])])

/-- `remediate` (opsbot.py lines 189-230): runs `docker restart` (the
success of the whole try block is the input `succeeds`); on success it
publishes a "Remediation Complete" record with value 25.0 (line 222) and
returns True, on any failure it returns False. -/
def remediate (cfg : Config) (ctime : String) (succeeds : Bool) :
    Bool × List Event :=
  if succeeds then
    (true, [Event.remediateCall cfg.containerName,
      Event.publishStatus (update_ui_data cfg true ctime
        [("status", JVal.str "Remediation Complete"),
         ("cpu_usage", JVal.num 25)])])
  else
    (false, [Event.remediateCall cfg.containerName])

/-- The action text of the success branch (opsbot.py line 331):
`f"Container '{CONTAINER_NAME}' restarted successfully"`. -/
def successAction (cfg : Config) : String :=
  "Container " ++ sQuote ++ cfg.containerName ++ sQuote ++
    " restarted successfully"

/-- The action text of the failure branch (opsbot.py line 338). -/
def failureAction : String :=
  "Automatic remediation failed - manual intervention required"

/-- `handle_cpu_spike` (opsbot.py lines 315-343): publish "Analyzing...",
run `analyze_logs`, publish "Remediating...", run `remediate`; on success
notify and log the incident with the success action text and return True;
on failure notify, log with the failure action text, publish
"Intervention Needed" and return False. -/
def handle_cpu_spike (cfg : Config) (ctime : String) (cpu : ℚ)
    (diag : AnalyzeOutcome) (remSucceeds : Bool) : Bool × List Event :=
  let cause := analyze_logs diag
  let remResult := remediate cfg ctime remSucceeds
  if remResult.1 then
    (true,
      [Event.publishStatus (update_ui_data cfg true ctime
         [("cpu_usage", JVal.num cpu), ("status", JVal.str "Analyzing...")]),
       Event.diagnose,
       Event.publishStatus (update_ui_data cfg true ctime
         [("cpu_usage", JVal.num cpu), ("status", JVal.str "Remediating...")])]
      ++ remResult.2 ++
      [Event.notifyCall cause (successAction cfg),
       Event.logIncident cause (successAction cfg) cpu])
  else
    (false,
      [Event.publishStatus (update_ui_data cfg true ctime
         [("cpu_usage", JVal.num cpu), ("status", JVal.str "Analyzing...")]),
       Event.diagnose,
       Event.publishStatus (update_ui_data cfg true ctime
         [("cpu_usage", JVal.num cpu), ("status", JVal.str "Remediating...")])]
      ++ remResult.2 ++
      [Event.notifyCall cause failureAction,
       Event.logIncident cause failureAction cpu,
       Event.publishStatus (update_ui_data cfg true ctime
         [("status", JVal.str "Intervention Needed"),
          ("cpu_usage", JVal.num cpu)])])

/-- Mutable state of the `continuous_monitoring` loop (opsbot.py lines
349-350): `cycle_count` and `last_spike_time` (initially 0). -/
structure LoopState where
  cycleCount : ℕ
  lastSpikeTime : ℚ
deriving DecidableEq

/-- Environment inputs of one monitoring cycle: `time.time()` at the
cooldown check, `time.ctime()` for records, the sampling outcome, the
diagnosis outcome and the remediation outcome. -/
structure CycleInput where
  time : ℚ
  ctime : String
  sample : SampleOutcome
  diag : AnalyzeOutcome
  remSucceeds : Bool

/-- One iteration of the `while running` body of `continuous_monitoring`
(opsbot.py lines 352-380): sample; on a spike, either handle it and then
set `last_spike_time = current_time` (the time captured at line 362,
before `handle_cpu_spike`), or — when `current_time - last_spike_time`
is not `> 120` — publish a "Cooldown" record and do nothing else. -/
def monitoring_cycle (cfg : Config) (st : LoopState) (inp : CycleInput) :
    LoopState × List Event :=
  let m := monitor_cpu_once cfg inp.ctime inp.sample
  if m.1.1 then
    if inp.time - st.lastSpikeTime > cooldownLiteral then
      ⟨⟨st.cycleCount + 1, inp.time⟩,
        m.2 ++ (handle_cpu_spike cfg inp.ctime m.1.2 inp.diag
          inp.remSucceeds).2 ++ [Event.setLastSpikeTime inp.time]⟩
    else
      ⟨⟨st.cycleCount + 1, st.lastSpikeTime⟩,
        m.2 ++ [Event.publishStatus (update_ui_data cfg true inp.ctime
          [("cpu_usage", JVal.num m.1.2), ("status", JVal.str "Cooldown")])]⟩
  else
    ⟨⟨st.cycleCount + 1, st.lastSpikeTime⟩, m.2⟩

/-- `continuous_monitoring` (opsbot.py lines 345-390) run over a finite
list of cycle inputs (the loop runs while `running` holds; the list is
the sequence of cycles executed before the shutdown flag was observed).
Returns the final state and the per-cycle event traces. -/
def continuous_monitoring (cfg : Config) :
    LoopState → List CycleInput → LoopState × List (List Event)
  | st, [] => (st, [])
  | st, inp :: rest =>
      let step := monitoring_cycle cfg st inp
      let tail := continuous_monitoring cfg step.1 rest
      (tail.1, step.2 :: tail.2)

/-- The loop state reached after consuming `inputs`. -/
def stateAfter (cfg : Config) (st : LoopState) (inputs : List CycleInput) :
    LoopState :=
  (continuous_monitoring cfg st inputs).1

/-- The terminal record published by the `finally` block of `__main__`
(opsbot.py line 409): `{"status": "Stopped", "monitoring_active": False}`,
merged by `update_ui_data` with the global `running`, which is `False`
after the shutdown signal. -/
def finalStatus (cfg : Config) (ctimeF : String) : List (String × JVal) :=
  update_ui_data cfg false ctimeF
    [("status", JVal.str "Stopped"), ("monitoring_active", JVal.bool false)]

/-- The `__main__` block (opsbot.py lines 392-410) of a run that ends by
shutdown signal: publish the "Initializing..." record, run
`continuous_monitoring` over the executed cycles, then publish the
terminal "Stopped" record in the `finally` block (with `running = False`,
set by the signal handler). -/
def mainRun (cfg : Config) (ctime0 ctimeF : String)
    (inputs : List CycleInput) : List Event :=
  Event.publishStatus (update_ui_data cfg true ctime0
    [("cpu_usage", JVal.num 0), ("status", JVal.str "Initializing...")]) ::
  ((continuous_monitoring cfg ⟨0, 0⟩ inputs).2.flatten ++
    [Event.publishStatus (finalStatus cfg ctimeF)])

/-- A cycle triggers the incident-handling sequence when the sample is a
spike and the cooldown window has elapsed (opsbot.py lines 360-363). -/
def triggers (cfg : Config) (st : LoopState) (inp : CycleInput) : Prop :=
  (monitor_cpu_once cfg inp.ctime inp.sample).1.1 = true ∧
    inp.time - st.lastSpikeTime > cooldownLiteral

/-- `needle` occurs as a substring of `hay`. -/
def containsText (hay needle : String) : Prop :=
  strContains hay needle = true

theorem lookup_setKey_self (d : List (String × JVal)) (k : String) (v : JVal) :
    (setKey d k v).lookup k = some v := by
  induction d with
  | nil => simp [setKey, List.lookup]
  | cons p rest ih =>
      by_cases h : p.1 = k
      · simp [setKey, h, List.lookup]
      · have hb : (k == p.1) = false := by
          simp [beq_iff_eq]
          exact fun hk => h hk.symm
        simp [setKey, h, List.lookup, hb, ih]

theorem lookup_setKey_ne (d : List (String × JVal)) (k k' : String) (v : JVal)
    (h : k ≠ k') : (setKey d k v).lookup k' = d.lookup k' := by
  have hb : (k' == k) = false := by
    simp [beq_iff_eq]
    exact fun hk => h hk.symm
  induction d with
  | nil => simp [setKey, List.lookup, hb]
  | cons p rest ih =>
      by_cases hp : p.1 = k
      · simp [setKey, hp, List.lookup, hb]
      · simp [setKey, hp, List.lookup, ih]

theorem lookup_update_merged (cfg : Config) (r : Bool) (t : String)
    (d : List (String × JVal)) :
    (update_ui_data cfg r t d).lookup "monitoring_active" =
        some (JVal.bool r) ∧
      (update_ui_data cfg r t d).lookup "threshold" =
        some (JVal.num cfg.threshold) ∧
      (update_ui_data cfg r t d).lookup "container_name" =
        some (JVal.str cfg.containerName) ∧
      (update_ui_data cfg r t d).lookup "last_updated" =
        some (JVal.str t) := by
  refine ⟨?_, ?_, ?_, ?_⟩
  · exact lookup_setKey_self _ _ _
  · rw [update_ui_data, lookup_setKey_ne _ _ _ _ (by decide)]
    exact lookup_setKey_self _ _ _
  · rw [update_ui_data, lookup_setKey_ne _ _ _ _ (by decide),
      lookup_setKey_ne _ _ _ _ (by decide)]
    exact lookup_setKey_self _ _ _
  · rw [update_ui_data, lookup_setKey_ne _ _ _ _ (by decide),
      lookup_setKey_ne _ _ _ _ (by decide),
      lookup_setKey_ne _ _ _ _ (by decide)]
    exact lookup_setKey_self _ _ _

theorem lookup_update_other (cfg : Config) (r : Bool) (t : String)
    (d : List (String × JVal)) (k : String)
    (h1 : k ≠ "last_updated") (h2 : k ≠ "container_name")
    (h3 : k ≠ "threshold") (h4 : k ≠ "monitoring_active") :
    (update_ui_data cfg r t d).lookup k = d.lookup k := by
  rw [update_ui_data, lookup_setKey_ne _ _ _ _ (Ne.symm h4),
    lookup_setKey_ne _ _ _ _ (Ne.symm h3),
    lookup_setKey_ne _ _ _ _ (Ne.symm h2),
    lookup_setKey_ne _ _ _ _ (Ne.symm h1)]

theorem containsSub_append_right (needle xs ys : List Char)
    (h : containsSub needle ys = true) :
    containsSub needle (xs ++ ys) = true := by
  induction xs with
  | nil => simpa using h
  | cons c rest ih => simp [containsSub, Bool.or_eq_true, ih]

theorem containsSub_self (needle : List Char) :
    containsSub needle (needle ++ []) = true := by
  cases needle with
  | nil => simp [containsSub]
  | cons c rest =>
      simp [containsSub, Bool.or_eq_true, List.isPrefixOf_iff_prefix]

theorem containsText_of_suffix (pre needle : String) :
    containsText (pre ++ needle) needle := by
  unfold containsText strContains
  rw [String.data_append]
  exact containsSub_append_right _ _ _ (by simpa using containsSub_self needle.data)

theorem monitor_trace_no_handling (cfg : Config) (ctime : String)
    (s : SampleOutcome) (e : Event)
    (h : e ∈ (monitor_cpu_once cfg ctime s).2) : isHandlingEvent e = false := by
  cases s with
  | ok v =>
      by_cases hv : v > cfg.threshold
      · simp [monitor_cpu_once, hv] at h
        simp [h, isHandlingEvent]
      · simp [monitor_cpu_once, hv] at h
        simp [h, isHandlingEvent]
  | exn msg =>
      simp [monitor_cpu_once] at h
      simp [h, isHandlingEvent]

theorem continuous_monitoring_length (cfg : Config) (st : LoopState)
    (inputs : List CycleInput) :
    (continuous_monitoring cfg st inputs).2.length = inputs.length := by
  induction inputs generalizing st with
  | nil => simp [continuous_monitoring]
  | cons inp rest ih => simp [continuous_monitoring, ih]

/-- C7. After a shutdown signal, the `finally` block of `__main__`
publishes the last status record of the run: its `status` is "Stopped"
and its `monitoring_active` is `false` (the merged value of the global
`running`, which the signal handler cleared). -/
theorem c7_theorem (cfg : Config) (ctime0 ctimeF : String)
    (inputs : List CycleInput) :
    (mainRun cfg ctime0 ctimeF inputs).getLast? =
        some (Event.publishStatus (finalStatus cfg ctimeF)) ∧
      (finalStatus cfg ctimeF).lookup "status" = some (JVal.str "Stopped") ∧
      (finalStatus cfg ctimeF).lookup "monitoring_active" =
        some (JVal.bool false) := by
  refine ⟨?_, ?_, ?_⟩
  · show (Event.publishStatus _ ::
      ((continuous_monitoring cfg ⟨0, 0⟩ inputs).2.flatten ++
        [Event.publishStatus (finalStatus cfg ctimeF)])).getLast? = _
    rw [← List.cons_append, List.getLast?_concat]
  · rw [finalStatus, lookup_update_other cfg false ctimeF _ "status"
      (by decide) (by decide) (by decide) (by decide)]
    simp [List.lookup]
  · exact (lookup_update_merged cfg false ctimeF _).1

/-- C10. When the sampling step raises, `monitor_cpu_once` catches the
exception, publishes a "Monitoring Error" record with value 0 and returns
`(False, 0)`; the cycle therefore produces no diagnosis, remediation,
notification or incident-persistence event, and the loop state's
`last_spike_time` is untouched (the embedded functions are total: no
exception reaches the scheduler loop). -/
theorem c10_theorem (cfg : Config) (st : LoopState) (t : ℚ)
    (ct : String) (diag : AnalyzeOutcome) (remS : Bool) (msg : String) :
    monitor_cpu_once cfg ct (SampleOutcome.exn msg) =
        ((false, 0), [Event.publishStatus (update_ui_data cfg true ct
          [("cpu_usage", JVal.num 0),
           ("status", JVal.str "Monitoring Error")])]) ∧
      (monitoring_cycle cfg st
          ⟨t, ct, SampleOutcome.exn msg, diag, remS⟩).2.all
        (fun e => !(isHandlingEvent e)) = true ∧
      (monitoring_cycle cfg st
          ⟨t, ct, SampleOutcome.exn msg, diag, remS⟩).1.lastSpikeTime =
        st.lastSpikeTime := by
  refine ⟨rfl, ?_, ?_⟩
  · simp [monitoring_cycle, monitor_cpu_once, isHandlingEvent]
  · simp [monitoring_cycle, monitor_cpu_once]

/-- Bool test for the incident-persistence event. -/
def isLogIncidentEv : Event → Bool
  | Event.logIncident _ _ _ => true
  | _ => false

/-- C4. When remediation fails, `handle_cpu_spike` returns False after
notifying, appending exactly one incident record whose action text
contains "manual intervention required", and publishing an
"Intervention Needed" record; and `continuous_monitoring` still executes
every remaining cycle (one trace per input, so the loop does not
terminate on remediation failure). -/
theorem c4_theorem (cfg : Config) (ctime : String) (cpu : ℚ)
    (diag : AnalyzeOutcome) :
    (handle_cpu_spike cfg ctime cpu diag false).1 = false ∧
      Event.notifyCall (analyze_logs diag) failureAction ∈
        (handle_cpu_spike cfg ctime cpu diag false).2 ∧
      Event.logIncident (analyze_logs diag) failureAction cpu ∈
        (handle_cpu_spike cfg ctime cpu diag false).2 ∧
      (∀ c a q, Event.logIncident c a q ∈
          (handle_cpu_spike cfg ctime cpu diag false).2 →
        c = analyze_logs diag ∧ a = failureAction ∧ q = cpu) ∧
      ((handle_cpu_spike cfg ctime cpu diag false).2.countP
        isLogIncidentEv) = 1 ∧
      containsText failureAction "manual intervention required" ∧
      Event.publishStatus (update_ui_data cfg true ctime
          [("status", JVal.str "Intervention Needed"),
           ("cpu_usage", JVal.num cpu)]) ∈
        (handle_cpu_spike cfg ctime cpu diag false).2 ∧
      ∀ (st : LoopState) (inputs : List CycleInput),
        (continuous_monitoring cfg st inputs).2.length = inputs.length := by
  refine ⟨?_, ?_, ?_, ?_, ?_, ?_, ?_, ?_⟩
  · simp [handle_cpu_spike, remediate]
  · simp [handle_cpu_spike, remediate]
  · simp [handle_cpu_spike, remediate]
  · intro c a q h
    simp [handle_cpu_spike, remediate] at h
    exact h
  · simp [handle_cpu_spike, remediate, List.countP_cons, List.countP_nil,
      List.countP_append, isLogIncidentEv]
  · exact containsText_of_suffix "Automatic remediation failed - "
      "manual intervention required"
  · simp [handle_cpu_spike, remediate]
  · exact continuous_monitoring_length cfg

/-- Bool test: is `e` a publish of a record whose `status` equals `s`? -/
def pubHasStatus (e : Event) (s : String) : Bool :=
  match e with
  | Event.publishStatus d => d.lookup "status" == some (JVal.str s)
  | _ => false

/-- C3, counterexample. In a successful remediation run the handler's
last event is the incident-store append: no status record at all — in
particular none with status "Normal" — is published after the
notification, and no record with status "Normal" occurs anywhere in the
handling trace (the record published inside `remediate` says
"Remediation Complete"). -/
theorem c3_counterexample :
    (handle_cpu_spike ⟨80, "test-container"⟩ "t" 95
        (AnalyzeOutcome.api "c") true).1 = true ∧
      Event.notifyCall "c" (successAction ⟨80, "test-container"⟩) ∈
        (handle_cpu_spike ⟨80, "test-container"⟩ "t" 95
          (AnalyzeOutcome.api "c") true).2 ∧
      ((handle_cpu_spike ⟨80, "test-container"⟩ "t" 95
          (AnalyzeOutcome.api "c") true).2).getLast? =
        some (Event.logIncident "c"
          (successAction ⟨80, "test-container"⟩) 95) ∧
      ((handle_cpu_spike ⟨80, "test-container"⟩ "t" 95
          (AnalyzeOutcome.api "c") true).2).all
        (fun e => !(pubHasStatus e "Normal")) = true := by
  refine ⟨by decide, by decide, by decide, by decide⟩

theorem successAction_contains (cfg : Config) :
    containsText (successAction cfg) "restarted successfully" := by
  have h : successAction cfg =
      ("Container " ++ sQuote ++ cfg.containerName ++ sQuote ++ " ") ++
        "restarted successfully" := by
    apply String.ext
    simp [successAction, String.data_append]
  rw [h]
  exact containsText_of_suffix _ _

/-- C3, amended. When remediation succeeds the handler triggers the
notification and appends one incident record whose action text contains
"restarted successfully"; the status record published by the sequence is
the "Remediation Complete" record emitted inside `remediate` *before*
the notification, and no record with status "Normal" is published by the
handling sequence (the full trace is given explicitly). -/
theorem c3_theorem (cfg : Config) (ctime : String) (cpu : ℚ)
    (diag : AnalyzeOutcome) :
    (handle_cpu_spike cfg ctime cpu diag true).1 = true ∧
      (handle_cpu_spike cfg ctime cpu diag true).2 =
        [Event.publishStatus (update_ui_data cfg true ctime
           [("cpu_usage", JVal.num cpu), ("status", JVal.str "Analyzing...")]),
         Event.diagnose,
         Event.publishStatus (update_ui_data cfg true ctime
           [("cpu_usage", JVal.num cpu),
            ("status", JVal.str "Remediating...")]),
         Event.remediateCall cfg.containerName,
         Event.publishStatus (update_ui_data cfg true ctime
           [("status", JVal.str "Remediation Complete"),
            ("cpu_usage", JVal.num 25)]),
         Event.notifyCall (analyze_logs diag) (successAction cfg),
         Event.logIncident (analyze_logs diag) (successAction cfg) cpu] ∧
      containsText (successAction cfg) "restarted successfully" := by
  refine ⟨by simp [handle_cpu_spike, remediate],
    by simp [handle_cpu_spike, remediate], successAction_contains cfg⟩

/-- C5, counterexample. When the diagnostic step raises (here with
message "timeout"), the cause string actually substituted is
"Log analysis failed: timeout" — not the documented fallback string
"diagnosis unavailable", which it does not even contain — and that cause
is the one passed to the notification. -/
theorem c5_counterexample :
    analyze_logs (AnalyzeOutcome.exn "timeout") =
        "Log analysis failed: timeout" ∧
      strContains (analyze_logs (AnalyzeOutcome.exn "timeout"))
        "diagnosis unavailable" = false ∧
      Event.notifyCall "Log analysis failed: timeout" failureAction ∈
        (handle_cpu_spike ⟨80, "test-container"⟩ "t" 95
          (AnalyzeOutcome.exn "timeout") false).2 := by
  refine ⟨by decide, by decide, by decide⟩

/-- C5, amended. When diagnosis fails, the cause substituted is
"Log analysis failed: " followed by the exception message, and
remediation still proceeds (the `docker restart` call occurs in the
trace) with that cause passed on to the notification, whether remediation
then succeeds or fails. -/
theorem c5_theorem (cfg : Config) (ctime : String) (cpu : ℚ)
    (msg : String) (remS : Bool) :
    analyze_logs (AnalyzeOutcome.exn msg) = "Log analysis failed: " ++ msg ∧
      Event.remediateCall cfg.containerName ∈
        (handle_cpu_spike cfg ctime cpu (AnalyzeOutcome.exn msg) remS).2 ∧
      Event.notifyCall ("Log analysis failed: " ++ msg)
          (if remS then successAction cfg else failureAction) ∈
        (handle_cpu_spike cfg ctime cpu (AnalyzeOutcome.exn msg) remS).2 := by
  refine ⟨rfl, ?_, ?_⟩
  · cases remS with
    | true => simp [handle_cpu_spike, remediate]
    | false => simp [handle_cpu_spike, remediate]
  · cases remS with
    | true => simp [handle_cpu_spike, remediate, analyze_logs]
    | false => simp [handle_cpu_spike, remediate, analyze_logs]

theorem diagnose_mem_handle (cfg : Config) (ctime : String) (cpu : ℚ)
    (diag : AnalyzeOutcome) (remS : Bool) :
    Event.diagnose ∈ (handle_cpu_spike cfg ctime cpu diag remS).2 := by
  cases remS with
  | true => simp [handle_cpu_spike, remediate]
  | false => simp [handle_cpu_spike, remediate]

/-- C1, counterexample. A concrete triggering cycle (spike 95 > 80 at
time 200, empty cooldown window): the cycle does diagnose and does record
the trigger time, but every event before the `diagnose` event is not the
trigger-time update — `last_spike_time` is written only after the
handling sequence, contradicting "set before diagnosis begins". -/
theorem c1_counterexample :
    triggers ⟨80, "test-container"⟩ ⟨0, 0⟩
        ⟨200, "t", SampleOutcome.ok 95, AnalyzeOutcome.api "c", true⟩ ∧
      Event.diagnose ∈ (monitoring_cycle ⟨80, "test-container"⟩ ⟨0, 0⟩
        ⟨200, "t", SampleOutcome.ok 95, AnalyzeOutcome.api "c", true⟩).2 ∧
      ((monitoring_cycle ⟨80, "test-container"⟩ ⟨0, 0⟩
          ⟨200, "t", SampleOutcome.ok 95, AnalyzeOutcome.api "c", true⟩).2.any
        isSetLast) = true ∧
      ((monitoring_cycle ⟨80, "test-container"⟩ ⟨0, 0⟩
          ⟨200, "t", SampleOutcome.ok 95, AnalyzeOutcome.api "c",
            true⟩).2.takeWhile
        (fun e => !(e == Event.diagnose))).all
          (fun e => !(isSetLast e)) = true := by
  refine ⟨⟨by decide, ?_⟩, ?_, ?_, ?_⟩
  · show (200 : ℚ) - 0 > cooldownLiteral
    norm_num [cooldownLiteral]
  · simp only [monitoring_cycle, monitor_cpu_once, cooldownLiteral]
    norm_num
    exact Or.inr (Or.inl (diagnose_mem_handle _ _ _ _ _))
  · simp only [monitoring_cycle, monitor_cpu_once, handle_cpu_spike,
      remediate, analyze_logs, cooldownLiteral]
    norm_num
    simp [isSetLast]
  · simp only [monitoring_cycle, monitor_cpu_once, handle_cpu_spike,
      remediate, analyze_logs, cooldownLiteral]
    norm_num
    decide

/-- C1, amended. In every triggering cycle the controller records the
trigger time `current_time` (captured before diagnosis) into
`last_spike_time` only *after* the handling sequence completes: the
update is the last event of the cycle trace, while the diagnosis event
occurs earlier in the same trace; the resulting loop state carries
`lastSpikeTime = inp.time`. -/
theorem c1_theorem (cfg : Config) (st : LoopState) (inp : CycleInput)
    (h : triggers cfg st inp) :
    (monitoring_cycle cfg st inp).2.getLast? =
        some (Event.setLastSpikeTime inp.time) ∧
      Event.diagnose ∈ (monitoring_cycle cfg st inp).2 ∧
      (monitoring_cycle cfg st inp).1.lastSpikeTime = inp.time := by
  rcases h with ⟨h1, h2⟩
  refine ⟨?_, ?_, ?_⟩
  · simp only [monitoring_cycle, h1, if_true, h2]
    rw [List.getLast?_concat]
  · simp only [monitoring_cycle, h1, if_true, h2]
    simp [diagnose_mem_handle]
  · simp only [monitoring_cycle, h1, if_true, h2]

/-- Witness for the C1 amended theorem at a concrete triggering input. -/
theorem c1_witness :
    triggers ⟨80, "test-container"⟩ ⟨0, 0⟩
        ⟨200, "t", SampleOutcome.ok 95, AnalyzeOutcome.api "c", true⟩ ∧
      ((monitoring_cycle ⟨80, "test-container"⟩ ⟨0, 0⟩
          ⟨200, "t", SampleOutcome.ok 95, AnalyzeOutcome.api "c",
            true⟩).2.getLast? = some (Event.setLastSpikeTime 200) ∧
        Event.diagnose ∈ (monitoring_cycle ⟨80, "test-container"⟩ ⟨0, 0⟩
          ⟨200, "t", SampleOutcome.ok 95, AnalyzeOutcome.api "c", true⟩).2 ∧
        (monitoring_cycle ⟨80, "test-container"⟩ ⟨0, 0⟩
          ⟨200, "t", SampleOutcome.ok 95, AnalyzeOutcome.api "c",
            true⟩).1.lastSpikeTime = 200) := by
  have ht : triggers ⟨80, "test-container"⟩ ⟨0, 0⟩
      ⟨200, "t", SampleOutcome.ok 95, AnalyzeOutcome.api "c", true⟩ := by
    refine ⟨by decide, ?_⟩
    show (200 : ℚ) - 0 > cooldownLiteral
    norm_num [cooldownLiteral]
  exact ⟨ht, c1_theorem _ _ _ ht⟩

theorem stateAfter_cons (cfg : Config) (st : LoopState) (a : CycleInput)
    (l : List CycleInput) :
    stateAfter cfg st (a :: l) =
      stateAfter cfg (monitoring_cycle cfg st a).1 l := by
  simp [stateAfter, continuous_monitoring]

theorem stateAfter_append (cfg : Config) (st : LoopState)
    (as bs : List CycleInput) :
    stateAfter cfg st (as ++ bs) =
      stateAfter cfg (stateAfter cfg st as) bs := by
  induction as generalizing st with
  | nil => simp [stateAfter, continuous_monitoring]
  | cons a rest ih =>
      rw [List.cons_append, stateAfter_cons, ih, stateAfter_cons]

theorem lastSpike_step_cases (cfg : Config) (st : LoopState)
    (inp : CycleInput) :
    (monitoring_cycle cfg st inp).1.lastSpikeTime = st.lastSpikeTime ∨
      (monitoring_cycle cfg st inp).1.lastSpikeTime = inp.time := by
  simp only [monitoring_cycle]
  split_ifs <;> simp

theorem lastSpike_lower (cfg : Config) (c : ℚ) (inputs : List CycleInput) :
    ∀ st : LoopState, c ≤ st.lastSpikeTime →
      (∀ inp ∈ inputs, c ≤ inp.time) →
      c ≤ (stateAfter cfg st inputs).lastSpikeTime := by
  induction inputs with
  | nil =>
      intro st h _
      simpa [stateAfter, continuous_monitoring] using h
  | cons a rest ih =>
      intro st h hall
      rw [stateAfter_cons]
      apply ih
      · rcases lastSpike_step_cases cfg st a with hc | hc
        · rw [hc]; exact h
        · rw [hc]; exact hall a (by simp)
      · intro inp hi
        exact hall inp (by simp [hi])

theorem trigger_sets_lastSpike (cfg : Config) (st : LoopState)
    (inp : CycleInput)
    (h1 : (monitor_cpu_once cfg inp.ctime inp.sample).1.1 = true)
    (h2 : inp.time - st.lastSpikeTime > cooldownLiteral) :
    (monitoring_cycle cfg st inp).1.lastSpikeTime = inp.time := by
  simp only [monitoring_cycle, h1, if_true, h2]

/-- C2. Cooldown correctness. First part: if a handling sequence triggers
at `inp1` (its trigger time `inp1.time`) and a later cycle `inp2`
triggers again — with wall-clock times not running backwards in between —
then `inp2.time > inp1.time + 120`, so no second sequence starts within
the cooldown window. Second part: a breach sample arriving while the
window is still open takes the cooldown branch — its cycle publishes the
"Cooldown" record and contains no diagnosis, remediation, notification or
incident-persistence event. -/
theorem c2_theorem (cfg : Config) (st0 : LoopState)
    (xs ys : List CycleInput) (inp1 inp2 : CycleInput)
    (st : LoopState) (inp : CycleInput)
    (hmono : ∀ i ∈ ys, inp1.time ≤ i.time)
    (h1 : triggers cfg (stateAfter cfg st0 xs) inp1)
    (h2 : triggers cfg (stateAfter cfg st0 (xs ++ inp1 :: ys)) inp2)
    (hspike : (monitor_cpu_once cfg inp.ctime inp.sample).1.1 = true)
    (hcool : ¬(inp.time - st.lastSpikeTime > cooldownLiteral)) :
    inp2.time > inp1.time + cooldownLiteral ∧
      (monitoring_cycle cfg st inp).2.all
        (fun e => !(isHandlingEvent e)) = true ∧
      Event.publishStatus (update_ui_data cfg true inp.ctime
          [("cpu_usage",
            JVal.num (monitor_cpu_once cfg inp.ctime inp.sample).1.2),
           ("status", JVal.str "Cooldown")]) ∈
        (monitoring_cycle cfg st inp).2 := by
  refine ⟨?_, ?_, ?_⟩
  · have hsplit : stateAfter cfg st0 (xs ++ inp1 :: ys) =
        stateAfter cfg (monitoring_cycle cfg (stateAfter cfg st0 xs) inp1).1
          ys := by
      rw [stateAfter_append, stateAfter_cons]
    have hset := trigger_sets_lastSpike cfg _ inp1 h1.1 h1.2
    have hlow : inp1.time ≤
        (stateAfter cfg st0 (xs ++ inp1 :: ys)).lastSpikeTime := by
      rw [hsplit]
      apply lastSpike_lower
      · rw [hset]
      · exact hmono
    have hgt := h2.2
    linarith [hgt, hlow]
  · simp only [monitoring_cycle, hspike, if_true, if_neg hcool]
    rw [List.all_append]
    refine (Bool.and_eq_true _ _).mpr ⟨?_, by simp [isHandlingEvent]⟩
    rw [List.all_eq_true]
    intro e he
    simp [monitor_trace_no_handling cfg inp.ctime inp.sample e he]
  · simp only [monitoring_cycle, hspike, if_true, if_neg hcool]
    simp

/-- Witness for C2 at concrete inputs: a first trigger at time 1000, a
cooldown-blocked breach at time 1030, and a second trigger at time 1130. -/
theorem c2_witness :
    (∀ i ∈ ([] : List CycleInput),
        (⟨1000, "t1", SampleOutcome.ok 95, AnalyzeOutcome.api "c", true⟩ :
          CycleInput).time ≤ i.time) ∧
      triggers ⟨80, "test-container"⟩
        (stateAfter ⟨80, "test-container"⟩ ⟨0, 0⟩ [])
        ⟨1000, "t1", SampleOutcome.ok 95, AnalyzeOutcome.api "c", true⟩ ∧
      triggers ⟨80, "test-container"⟩
        (stateAfter ⟨80, "test-container"⟩ ⟨0, 0⟩
          ([] ++ (⟨1000, "t1", SampleOutcome.ok 95, AnalyzeOutcome.api "c",
            true⟩ : CycleInput) :: []))
        ⟨1130, "t2", SampleOutcome.ok 95, AnalyzeOutcome.api "c", true⟩ ∧
      (monitor_cpu_once ⟨80, "test-container"⟩ "t3"
          (SampleOutcome.ok 95)).1.1 = true ∧
      ¬((1030 : ℚ) - (⟨1, 1000⟩ : LoopState).lastSpikeTime >
        cooldownLiteral) ∧
      ((⟨1130, "t2", SampleOutcome.ok 95, AnalyzeOutcome.api "c", true⟩ :
          CycleInput).time >
        (⟨1000, "t1", SampleOutcome.ok 95, AnalyzeOutcome.api "c", true⟩ :
          CycleInput).time + cooldownLiteral ∧
        (monitoring_cycle ⟨80, "test-container"⟩ ⟨1, 1000⟩
          ⟨1030, "t3", SampleOutcome.ok 95, AnalyzeOutcome.api "c",
            true⟩).2.all (fun e => !(isHandlingEvent e)) = true ∧
        Event.publishStatus (update_ui_data ⟨80, "test-container"⟩ true "t3"
            [("cpu_usage", JVal.num (monitor_cpu_once ⟨80, "test-container"⟩
              "t3" (SampleOutcome.ok 95)).1.2),
             ("status", JVal.str "Cooldown")]) ∈
          (monitoring_cycle ⟨80, "test-container"⟩ ⟨1, 1000⟩
            ⟨1030, "t3", SampleOutcome.ok 95, AnalyzeOutcome.api "c",
              true⟩).2) := by
  have hmono : ∀ i ∈ ([] : List CycleInput),
      (⟨1000, "t1", SampleOutcome.ok 95, AnalyzeOutcome.api "c", true⟩ :
        CycleInput).time ≤ i.time := by
    intro i hi
    simp at hi
  have h1 : triggers ⟨80, "test-container"⟩
      (stateAfter ⟨80, "test-container"⟩ ⟨0, 0⟩ [])
      ⟨1000, "t1", SampleOutcome.ok 95, AnalyzeOutcome.api "c", true⟩ := by
    refine ⟨by decide, ?_⟩
    show (1000 : ℚ) - (0 : ℚ) > cooldownLiteral
    norm_num [cooldownLiteral]
  have h2 : triggers ⟨80, "test-container"⟩
      (stateAfter ⟨80, "test-container"⟩ ⟨0, 0⟩
        ([] ++ (⟨1000, "t1", SampleOutcome.ok 95, AnalyzeOutcome.api "c",
          true⟩ : CycleInput) :: []))
      ⟨1130, "t2", SampleOutcome.ok 95, AnalyzeOutcome.api "c", true⟩ := by
    refine ⟨by decide, ?_⟩
    have hs : stateAfter ⟨80, "test-container"⟩ ⟨0, 0⟩
        ([] ++ (⟨1000, "t1", SampleOutcome.ok 95, AnalyzeOutcome.api "c",
          true⟩ : CycleInput) :: []) =
        (monitoring_cycle ⟨80, "test-container"⟩ ⟨0, 0⟩
          ⟨1000, "t1", SampleOutcome.ok 95, AnalyzeOutcome.api "c",
            true⟩).1 := by
      rw [List.nil_append, stateAfter_cons]
      simp [stateAfter, continuous_monitoring]
    rw [hs, trigger_sets_lastSpike _ _ _ (by decide) (by
      show (1000 : ℚ) - (0 : ℚ) > cooldownLiteral
      norm_num [cooldownLiteral])]
    show (1130 : ℚ) - (1000 : ℚ) > cooldownLiteral
    norm_num [cooldownLiteral]
  have hspike : (monitor_cpu_once ⟨80, "test-container"⟩ "t3"
      (SampleOutcome.ok 95)).1.1 = true := by decide
  have hcool : ¬((1030 : ℚ) - (⟨1, 1000⟩ : LoopState).lastSpikeTime >
      cooldownLiteral) := by
    show ¬((1030 : ℚ) - (1000 : ℚ) > cooldownLiteral)
    norm_num [cooldownLiteral]
  exact ⟨hmono, h1, h2, hspike, hcool,
    c2_theorem ⟨80, "test-container"⟩ ⟨0, 0⟩ [] []
      ⟨1000, "t1", SampleOutcome.ok 95, AnalyzeOutcome.api "c", true⟩
      ⟨1130, "t2", SampleOutcome.ok 95, AnalyzeOutcome.api "c", true⟩
      ⟨1, 1000⟩
      ⟨1030, "t3", SampleOutcome.ok 95, AnalyzeOutcome.api "c", true⟩
      hmono h1 h2 hspike hcool⟩

theorem firstAccepted_range (l : List (Option ℚ)) (v : ℚ)
    (h : firstAccepted l = some v) : 0 ≤ v ∧ v ≤ 100 := by
  induction l with
  | nil => simp [firstAccepted] at h
  | cons o rest ih =>
      cases o with
      | none => exact ih (by simpa [firstAccepted] using h)
      | some w =>
          by_cases hw : 0 ≤ w ∧ w ≤ 100
          · rw [firstAccepted, if_pos hw] at h
            cases h
            exact hw
          · rw [firstAccepted, if_neg hw] at h
            exact ih h

theorem simulateCpu_range (inp : MetricInput)
    (h5 : -1 ≤ inp.simSin) (h6 : inp.simSin ≤ 1)
    (h7 : -8 ≤ inp.simNoise) (h8 : inp.simNoise ≤ 12)
    (h9 : 85 ≤ inp.simSpikeVal) (h10 : inp.simSpikeVal ≤ 95) :
    0 ≤ simulateCpu inp ∧ simulateCpu inp ≤ 100 := by
  unfold simulateCpu
  split_ifs with hs
  · constructor <;> linarith
  · constructor
    · have h := le_max_left (5 : ℚ)
        (min 95 ((20 + 15 * inp.simSin) + inp.simNoise))
      linarith
    · apply max_le (by norm_num)
      exact le_trans (min_le_left _ _) (by norm_num)

theorem get_cpu_usage_range (inp : MetricInput)
    (h1 : 0 ≤ inp.rawTimeMod) (h2 : inp.rawTimeMod < 30)
    (h3 : -5 ≤ inp.rawUniform) (h4 : inp.rawUniform ≤ 15)
    (h5 : -1 ≤ inp.simSin) (h6 : inp.simSin ≤ 1)
    (h7 : -8 ≤ inp.simNoise) (h8 : inp.simNoise ≤ 12)
    (h9 : 85 ≤ inp.simSpikeVal) (h10 : inp.simSpikeVal ≤ 95) :
    0 ≤ get_cpu_usage inp ∧ get_cpu_usage inp ≤ 100 := by
  unfold get_cpu_usage
  by_cases hp : inp.promAvailable = true
  · simp only [hp, if_true]
    cases hfa : firstAccepted inp.queryResults with
    | some v => exact firstAccepted_range _ _ hfa
    | none =>
        by_cases hr : inp.rawOk = true
        · simp only [hr, if_true]
          constructor
          · exact le_min (by linarith) (by norm_num)
          · exact le_trans (min_le_right _ _) (by norm_num)
        · simp only [hr, if_false]
          exact simulateCpu_range inp h5 h6 h7 h8 h9 h10
  · simp only [hp, if_false]
    exact simulateCpu_range inp h5 h6 h7 h8 h9 h10

theorem monitor_publish_value (cfg : Config) (ctime : String) (v : ℚ)
    (d : List (String × JVal))
    (h : Event.publishStatus d ∈
      (monitor_cpu_once cfg ctime (SampleOutcome.ok v)).2) :
    d.lookup "cpu_usage" = some (JVal.num v) := by
  by_cases hv : v > cfg.threshold
  · simp only [monitor_cpu_once, hv, if_true, List.mem_singleton,
      Event.publishStatus.injEq] at h
    rw [h, lookup_update_other _ _ _ _ _ (by decide) (by decide) (by decide)
      (by decide)]
    simp [List.lookup]
  · simp only [monitor_cpu_once, hv, if_false, List.mem_singleton,
      Event.publishStatus.injEq] at h
    rw [h, lookup_update_other _ _ _ _ _ (by decide) (by decide) (by decide)
      (by decide)]
    simp [List.lookup]

/-- C6. Range sanity of accepted metric values: under the numeric ranges
the source's random draws and `sin` guarantee, `get_cpu_usage` always
returns a value in [0, 100]; the synthetic fallback alone is in [0, 100];
an out-of-range query value is skipped by the sanity-check loop; and the
status record published by a monitoring cycle carries exactly the sampled
value, so every value accepted into a published status lies in [0, 100]. -/
theorem c6_theorem (inp : MetricInput) (v : ℚ) (rest : List (Option ℚ))
    (cfg : Config) (ctime : String) (d : List (String × JVal))
    (h1 : 0 ≤ inp.rawTimeMod) (h2 : inp.rawTimeMod < 30)
    (h3 : -5 ≤ inp.rawUniform) (h4 : inp.rawUniform ≤ 15)
    (h5 : -1 ≤ inp.simSin) (h6 : inp.simSin ≤ 1)
    (h7 : -8 ≤ inp.simNoise) (h8 : inp.simNoise ≤ 12)
    (h9 : 85 ≤ inp.simSpikeVal) (h10 : inp.simSpikeVal ≤ 95)
    (hv : ¬(0 ≤ v ∧ v ≤ 100))
    (hd : Event.publishStatus d ∈
      (monitor_cpu_once cfg ctime
        (SampleOutcome.ok (get_cpu_usage inp))).2) :
    (0 ≤ get_cpu_usage inp ∧ get_cpu_usage inp ≤ 100) ∧
      (0 ≤ simulateCpu inp ∧ simulateCpu inp ≤ 100) ∧
      firstAccepted (some v :: rest) = firstAccepted rest ∧
      d.lookup "cpu_usage" = some (JVal.num (get_cpu_usage inp)) := by
  refine ⟨get_cpu_usage_range inp h1 h2 h3 h4 h5 h6 h7 h8 h9 h10,
    simulateCpu_range inp h5 h6 h7 h8 h9 h10, ?_, ?_⟩
  · rw [firstAccepted, if_neg hv]
  · exact monitor_publish_value cfg ctime _ d hd

/-- Witness for C6 at a concrete metric input (Prometheus available,
first query returns 50) with an out-of-range candidate 150 and the
concrete "Normal" record the cycle publishes. -/
theorem c6_witness :
    (0 ≤ (⟨true, [some 50], true, 0, 0, 0, 0, false, 90⟩ :
        MetricInput).rawTimeMod ∧
      (⟨true, [some 50], true, 0, 0, 0, 0, false, 90⟩ :
        MetricInput).rawTimeMod < 30 ∧
      ¬((0 : ℚ) ≤ 150 ∧ (150 : ℚ) ≤ 100) ∧
      Event.publishStatus (update_ui_data ⟨80, "test-container"⟩ true "t"
          [("cpu_usage", JVal.num (get_cpu_usage
            ⟨true, [some 50], true, 0, 0, 0, 0, false, 90⟩)),
           ("status", JVal.str "Normal")]) ∈
        (monitor_cpu_once ⟨80, "test-container"⟩ "t"
          (SampleOutcome.ok (get_cpu_usage
            ⟨true, [some 50], true, 0, 0, 0, 0, false, 90⟩))).2) ∧
      ((0 ≤ get_cpu_usage ⟨true, [some 50], true, 0, 0, 0, 0, false, 90⟩ ∧
          get_cpu_usage ⟨true, [some 50], true, 0, 0, 0, 0, false, 90⟩ ≤
            100) ∧
        (0 ≤ simulateCpu ⟨true, [some 50], true, 0, 0, 0, 0, false, 90⟩ ∧
          simulateCpu ⟨true, [some 50], true, 0, 0, 0, 0, false, 90⟩ ≤
            100) ∧
        firstAccepted (some 150 :: []) = firstAccepted [] ∧
        (update_ui_data ⟨80, "test-container"⟩ true "t"
            [("cpu_usage", JVal.num (get_cpu_usage
              ⟨true, [some 50], true, 0, 0, 0, 0, false, 90⟩)),
             ("status", JVal.str "Normal")]).lookup "cpu_usage" =
          some (JVal.num (get_cpu_usage
            ⟨true, [some 50], true, 0, 0, 0, 0, false, 90⟩))) := by
  have hval : get_cpu_usage ⟨true, [some 50], true, 0, 0, 0, 0, false, 90⟩ =
      50 := by decide
  have hv : ¬((0 : ℚ) ≤ 150 ∧ (150 : ℚ) ≤ 100) := by norm_num
  have hd : Event.publishStatus (update_ui_data ⟨80, "test-container"⟩
      true "t" [("cpu_usage", JVal.num (get_cpu_usage
        ⟨true, [some 50], true, 0, 0, 0, 0, false, 90⟩)),
       ("status", JVal.str "Normal")]) ∈
      (monitor_cpu_once ⟨80, "test-container"⟩ "t"
        (SampleOutcome.ok (get_cpu_usage
          ⟨true, [some 50], true, 0, 0, 0, 0, false, 90⟩))).2 := by
    rw [hval]
    decide
  refine ⟨⟨by norm_num, by norm_num, hv, hd⟩, ?_⟩
  exact c6_theorem ⟨true, [some 50], true, 0, 0, 0, 0, false, 90⟩ 150 []
    ⟨80, "test-container"⟩ "t" _ (by norm_num) (by norm_num) (by norm_num)
    (by norm_num) (by norm_num) (by norm_num) (by norm_num) (by norm_num)
    (by norm_num) (by norm_num) hv hd

/-- C8, counterexample. With the spec's four key names all set in the
environment, the program still uses the defaults: the threshold is read
from key CPU_THRESHOLD (not THRESHOLD_PERCENT), the subject name from
CONTAINER_NAME (not SUBJECT_NAME), and the sampling interval (30) and
cooldown bound (120) are hardcoded constants never read from any key. -/
theorem c8_counterexample :
    getenv [("THRESHOLD_PERCENT", "50"), ("SUBJECT_NAME", "other-subject"),
        ("SAMPLING_INTERVAL_SECONDS", "5"), ("COOLDOWN_SECONDS", "10")]
      "THRESHOLD_PERCENT" = some "50" ∧
      THRESHOLD [("THRESHOLD_PERCENT", "50"), ("SUBJECT_NAME",
        "other-subject"), ("SAMPLING_INTERVAL_SECONDS", "5"),
        ("COOLDOWN_SECONDS", "10")] = 80 ∧
      CONTAINER_NAME [("THRESHOLD_PERCENT", "50"), ("SUBJECT_NAME",
        "other-subject"), ("SAMPLING_INTERVAL_SECONDS", "5"),
        ("COOLDOWN_SECONDS", "10")] = "test-container" ∧
      MONITORING_INTERVAL = 30 ∧
      cooldownLiteral = 120 ∧
      configFromEnv [("THRESHOLD_PERCENT", "50"), ("SUBJECT_NAME",
        "other-subject"), ("SAMPLING_INTERVAL_SECONDS", "5"),
        ("COOLDOWN_SECONDS", "10")] = ⟨80, "test-container"⟩ := by
  refine ⟨by decide, by decide, by decide, by decide, rfl, ?_⟩
  show Config.mk _ _ = _
  rw [show THRESHOLD [("THRESHOLD_PERCENT", "50"), ("SUBJECT_NAME",
    "other-subject"), ("SAMPLING_INTERVAL_SECONDS", "5"),
    ("COOLDOWN_SECONDS", "10")] = 80 from by decide]
  rw [show CONTAINER_NAME [("THRESHOLD_PERCENT", "50"), ("SUBJECT_NAME",
    "other-subject"), ("SAMPLING_INTERVAL_SECONDS", "5"),
    ("COOLDOWN_SECONDS", "10")] = "test-container" from by decide]
  norm_num

/-- C8, amended. Configuration is read from environment keys
CPU_THRESHOLD (default 80, parsed as an integer) and CONTAINER_NAME
(default "test-container"), each optional with its default used when
unset; the sampling interval is the hardcoded constant 30 and the
cooldown bound the hardcoded constant 120, neither read from the
environment. -/
theorem c8_theorem (env : List (String × String)) (s : String)
    (hthr : getenv env "CPU_THRESHOLD" = none)
    (hcn : getenv env "CONTAINER_NAME" = none)
    (hs : getenv [("CPU_THRESHOLD", s)] "CPU_THRESHOLD" = some s) :
    THRESHOLD env = 80 ∧
      CONTAINER_NAME env = "test-container" ∧
      THRESHOLD [("CPU_THRESHOLD", s)] = (pyInt s).getD 0 ∧
      CONTAINER_NAME [("CONTAINER_NAME", s)] = s ∧
      MONITORING_INTERVAL = 30 ∧
      cooldownLiteral = 120 := by
  refine ⟨?_, ?_, ?_, ?_, rfl, rfl⟩
  · rw [THRESHOLD, hthr]
    decide
  · rw [CONTAINER_NAME, hcn]
    rfl
  · rw [THRESHOLD, hs]
    rfl
  · rfl

/-- Witness for the C8 amended theorem: the empty environment and the
key set to "42". -/
theorem c8_witness :
    (getenv [] "CPU_THRESHOLD" = none ∧
      getenv [] "CONTAINER_NAME" = none ∧
      getenv [("CPU_THRESHOLD", "42")] "CPU_THRESHOLD" = some "42") ∧
      (THRESHOLD [] = 80 ∧
        CONTAINER_NAME [] = "test-container" ∧
        THRESHOLD [("CPU_THRESHOLD", "42")] = (pyInt "42").getD 0 ∧
        CONTAINER_NAME [("CONTAINER_NAME", "42")] = "42" ∧
        MONITORING_INTERVAL = 30 ∧
        cooldownLiteral = 120) := by
  refine ⟨⟨rfl, rfl, rfl⟩, ?_⟩
  exact c8_theorem [] "42" rfl rfl rfl

theorem monitor_publish_shape (cfg : Config) (ct : String)
    (s : SampleOutcome) (d : List (String × JVal))
    (h : Event.publishStatus d ∈ (monitor_cpu_once cfg ct s).2) :
    ∃ payload, d = update_ui_data cfg true ct payload ∧
      (payload.lookup "status").isSome = true ∧
      (payload.lookup "cpu_usage").isSome = true := by
  cases s with
  | ok v =>
      by_cases hv : v > cfg.threshold
      · simp only [monitor_cpu_once, hv, if_true, List.mem_singleton,
          Event.publishStatus.injEq] at h
        exact ⟨_, h, by simp [List.lookup], by simp [List.lookup]⟩
      · simp only [monitor_cpu_once, hv, if_false, List.mem_singleton,
          Event.publishStatus.injEq] at h
        exact ⟨_, h, by simp [List.lookup], by simp [List.lookup]⟩
  | exn msg =>
      simp only [monitor_cpu_once, List.mem_singleton,
        Event.publishStatus.injEq] at h
      exact ⟨_, h, by simp [List.lookup], by simp [List.lookup]⟩

theorem handle_publish_shape (cfg : Config) (ct : String) (cpu : ℚ)
    (diag : AnalyzeOutcome) (remS : Bool) (d : List (String × JVal))
    (h : Event.publishStatus d ∈ (handle_cpu_spike cfg ct cpu diag remS).2) :
    ∃ payload, d = update_ui_data cfg true ct payload ∧
      (payload.lookup "status").isSome = true ∧
      (payload.lookup "cpu_usage").isSome = true := by
  cases remS with
  | true =>
      rw [show (handle_cpu_spike cfg ct cpu diag true).2 =
        [Event.publishStatus (update_ui_data cfg true ct
           [("cpu_usage", JVal.num cpu),
            ("status", JVal.str "Analyzing...")]),
         Event.diagnose,
         Event.publishStatus (update_ui_data cfg true ct
           [("cpu_usage", JVal.num cpu),
            ("status", JVal.str "Remediating...")]),
         Event.remediateCall cfg.containerName,
         Event.publishStatus (update_ui_data cfg true ct
           [("status", JVal.str "Remediation Complete"),
            ("cpu_usage", JVal.num 25)]),
         Event.notifyCall (analyze_logs diag) (successAction cfg),
         Event.logIncident (analyze_logs diag) (successAction cfg) cpu]
        from by simp [handle_cpu_spike, remediate]] at h
      simp only [List.mem_cons, List.not_mem_nil, or_false] at h
      rcases h with h | h | h | h | h | h | h
      · exact ⟨_, Event.publishStatus.inj h, by simp [List.lookup],
          by simp [List.lookup]⟩
      · simp at h
      · exact ⟨_, Event.publishStatus.inj h, by simp [List.lookup],
          by simp [List.lookup]⟩
      · simp at h
      · exact ⟨_, Event.publishStatus.inj h, by simp [List.lookup],
          by simp [List.lookup]⟩
      · simp at h
      · simp at h
  | false =>
      rw [show (handle_cpu_spike cfg ct cpu diag false).2 =
        [Event.publishStatus (update_ui_data cfg true ct
           [("cpu_usage", JVal.num cpu),
            ("status", JVal.str "Analyzing...")]),
         Event.diagnose,
         Event.publishStatus (update_ui_data cfg true ct
           [("cpu_usage", JVal.num cpu),
            ("status", JVal.str "Remediating...")]),
         Event.remediateCall cfg.containerName,
         Event.notifyCall (analyze_logs diag) failureAction,
         Event.logIncident (analyze_logs diag) failureAction cpu,
         Event.publishStatus (update_ui_data cfg true ct
           [("status", JVal.str "Intervention Needed"),
            ("cpu_usage", JVal.num cpu)])]
        from by simp [handle_cpu_spike, remediate]] at h
      simp only [List.mem_cons, List.not_mem_nil, or_false] at h
      rcases h with h | h | h | h | h | h | h
      · exact ⟨_, Event.publishStatus.inj h, by simp [List.lookup],
          by simp [List.lookup]⟩
      · simp at h
      · exact ⟨_, Event.publishStatus.inj h, by simp [List.lookup],
          by simp [List.lookup]⟩
      · simp at h
      · simp at h
      · simp at h
      · exact ⟨_, Event.publishStatus.inj h, by simp [List.lookup],
          by simp [List.lookup]⟩

theorem cycle_publish_shape (cfg : Config) (st : LoopState)
    (inp : CycleInput) (d : List (String × JVal))
    (h : Event.publishStatus d ∈ (monitoring_cycle cfg st inp).2) :
    ∃ payload, d = update_ui_data cfg true inp.ctime payload ∧
      (payload.lookup "status").isSome = true ∧
      (payload.lookup "cpu_usage").isSome = true := by
  by_cases h1 : (monitor_cpu_once cfg inp.ctime inp.sample).1.1 = true
  · by_cases h2 : inp.time - st.lastSpikeTime > cooldownLiteral
    · simp only [monitoring_cycle, h1, if_true, if_pos h2, List.mem_append,
        List.mem_singleton, reduceCtorEq, or_false] at h
      rcases h with h | h
      · exact monitor_publish_shape cfg inp.ctime inp.sample d h
      · exact handle_publish_shape cfg inp.ctime _ inp.diag inp.remSucceeds
          d h
    · simp only [monitoring_cycle, h1, if_true, if_neg h2, List.mem_append,
        List.mem_singleton, Event.publishStatus.injEq] at h
      rcases h with h | h
      · exact monitor_publish_shape cfg inp.ctime inp.sample d h
      · exact ⟨_, h, by simp [List.lookup], by simp [List.lookup]⟩
  · simp only [monitoring_cycle, h1, if_false] at h
    cases h1' : (monitor_cpu_once cfg inp.ctime inp.sample).1.1 with
    | true => exact absurd h1' h1
    | false =>
        rw [Bool.not_eq_true] at h1
        simp only [h1, Bool.false_eq_true, if_false] at h
        exact monitor_publish_shape cfg inp.ctime inp.sample d h

theorem mem_continuous_monitoring_traces (cfg : Config)
    (inputs : List CycleInput) :
    ∀ (st : LoopState) (tr : List Event),
      tr ∈ (continuous_monitoring cfg st inputs).2 →
      ∃ st' inp, inp ∈ inputs ∧ tr = (monitoring_cycle cfg st' inp).2 := by
  induction inputs with
  | nil =>
      intro st tr h
      simp [continuous_monitoring] at h
  | cons a rest ih =>
      intro st tr h
      simp only [continuous_monitoring, List.mem_cons] at h
      rcases h with h | h
      · exact ⟨st, a, by simp, h⟩
      · rcases ih _ _ h with ⟨st', inp, hin, he⟩
        exact ⟨st', inp, by simp [hin], he⟩

theorem record_keys_of_payload (cfg : Config) (r : Bool) (t : String)
    (payload d : List (String × JVal))
    (hd : d = update_ui_data cfg r t payload)
    (hs : (payload.lookup "status").isSome = true) :
    (d.lookup "status").isSome = true ∧
      (d.lookup "last_updated").isSome = true ∧
      (d.lookup "container_name").isSome = true ∧
      (d.lookup "threshold").isSome = true ∧
      (d.lookup "monitoring_active").isSome = true := by
  subst hd
  have hm := lookup_update_merged cfg r t payload
  refine ⟨?_, ?_, ?_, ?_, ?_⟩
  · rw [lookup_update_other cfg r t payload "status" (by decide) (by decide)
      (by decide) (by decide)]
    exact hs
  · rw [hm.2.2.2]; rfl
  · rw [hm.2.2.1]; rfl
  · rw [hm.2.1]; rfl
  · rw [hm.1]; rfl

/-- C9, amended. Every status record published by a run carries `status`
and the four merged fields `last_updated`, `container_name`, `threshold`,
`monitoring_active`; every record except the terminal "Stopped" record
(the run's last publish) also carries `cpu_usage`; the terminal record
omits `cpu_usage`, so the claimed six-field minimum does not hold for it. -/
theorem c9_theorem (cfg : Config) (ctime0 ctimeF : String)
    (inputs : List CycleInput) (d dc : List (String × JVal))
    (hd : Event.publishStatus d ∈ mainRun cfg ctime0 ctimeF inputs)
    (hdc : Event.publishStatus dc ∈
      (mainRun cfg ctime0 ctimeF inputs).dropLast) :
    ((d.lookup "status").isSome = true ∧
      (d.lookup "last_updated").isSome = true ∧
      (d.lookup "container_name").isSome = true ∧
      (d.lookup "threshold").isSome = true ∧
      (d.lookup "monitoring_active").isSome = true) ∧
      (dc.lookup "cpu_usage").isSome = true ∧
      (finalStatus cfg ctimeF).lookup "cpu_usage" = none := by
  refine ⟨?_, ?_, ?_⟩
  · rw [mainRun] at hd
    rcases List.mem_cons.mp hd with h0 | hrest
    · exact record_keys_of_payload _ _ _ _ _ (Event.publishStatus.inj h0)
        (by simp [List.lookup])
    · rcases List.mem_append.mp hrest with hfl | hlast
      · obtain ⟨tr, htr, hin⟩ := List.mem_flatten.mp hfl
        obtain ⟨st', inp, _, rfl⟩ :=
          mem_continuous_monitoring_traces cfg inputs _ tr htr
        obtain ⟨payload, hdp, hs, _⟩ := cycle_publish_shape cfg st' inp d hin
        exact record_keys_of_payload _ _ _ _ _ hdp hs
      · simp only [List.mem_singleton] at hlast
        have hd' := Event.publishStatus.inj hlast
        rw [finalStatus] at hd'
        exact record_keys_of_payload _ _ _ _ _ hd' (by simp [List.lookup])
  · have hdl : (mainRun cfg ctime0 ctimeF inputs).dropLast =
        Event.publishStatus (update_ui_data cfg true ctime0
          [("cpu_usage", JVal.num 0),
           ("status", JVal.str "Initializing...")]) ::
          (continuous_monitoring cfg ⟨0, 0⟩ inputs).2.flatten := by
      rw [mainRun, ← List.cons_append, List.dropLast_concat]
    rw [hdl] at hdc
    rcases List.mem_cons.mp hdc with h0 | hfl
    · rw [Event.publishStatus.inj h0,
        lookup_update_other _ _ _ _ _ (by decide) (by decide) (by decide)
          (by decide)]
      simp [List.lookup]
    · obtain ⟨tr, htr, hin⟩ := List.mem_flatten.mp hfl
      obtain ⟨st', inp, _, rfl⟩ :=
        mem_continuous_monitoring_traces cfg inputs _ tr htr
      obtain ⟨payload, hdp, _, hc⟩ := cycle_publish_shape cfg st' inp dc hin
      rw [hdp, lookup_update_other _ _ _ _ _ (by decide) (by decide)
        (by decide) (by decide)]
      exact hc
  · rw [finalStatus, lookup_update_other _ _ _ _ _ (by decide) (by decide)
      (by decide) (by decide)]
    simp [List.lookup]

/-- C9, counterexample. The terminal "Stopped" record is published by
every run (here the empty run), yet it has no `cpu_usage` field — the
claimed six-field minimum fails for it. -/
theorem c9_counterexample :
    Event.publishStatus (finalStatus ⟨80, "test-container"⟩ "tF") ∈
        mainRun ⟨80, "test-container"⟩ "t0" "tF" [] ∧
      (finalStatus ⟨80, "test-container"⟩ "tF").lookup "cpu_usage" =
        none := by
  exact ⟨by decide, by decide⟩

/-- Witness for the C9 amended theorem at the empty run: the terminal
record and the initial record. -/
theorem c9_witness :
    (Event.publishStatus (finalStatus ⟨80, "test-container"⟩ "tF") ∈
        mainRun ⟨80, "test-container"⟩ "t0" "tF" [] ∧
      Event.publishStatus (update_ui_data ⟨80, "test-container"⟩ true "t0"
          [("cpu_usage", JVal.num 0),
           ("status", JVal.str "Initializing...")]) ∈
        (mainRun ⟨80, "test-container"⟩ "t0" "tF" []).dropLast) ∧
      ((((finalStatus ⟨80, "test-container"⟩ "tF").lookup
            "status").isSome = true ∧
        ((finalStatus ⟨80, "test-container"⟩ "tF").lookup
            "last_updated").isSome = true ∧
        ((finalStatus ⟨80, "test-container"⟩ "tF").lookup
            "container_name").isSome = true ∧
        ((finalStatus ⟨80, "test-container"⟩ "tF").lookup
            "threshold").isSome = true ∧
        ((finalStatus ⟨80, "test-container"⟩ "tF").lookup
            "monitoring_active").isSome = true) ∧
        ((update_ui_data ⟨80, "test-container"⟩ true "t0"
            [("cpu_usage", JVal.num 0),
             ("status", JVal.str "Initializing...")]).lookup
          "cpu_usage").isSome = true ∧
        (finalStatus ⟨80, "test-container"⟩ "tF").lookup "cpu_usage" =
          none) := by
  have hd : Event.publishStatus (finalStatus ⟨80, "test-container"⟩ "tF") ∈
      mainRun ⟨80, "test-container"⟩ "t0" "tF" [] := by decide
  have hdc : Event.publishStatus (update_ui_data ⟨80, "test-container"⟩
      true "t0" [("cpu_usage", JVal.num 0),
        ("status", JVal.str "Initializing...")]) ∈
      (mainRun ⟨80, "test-container"⟩ "t0" "tF" []).dropLast := by decide
  exact ⟨⟨hd, hdc⟩,
    c9_theorem ⟨80, "test-container"⟩ "t0" "tF" [] _ _ hd hdc⟩

/-- Witness for C4 at a concrete failing-remediation input. -/
theorem c4_witness :
    (handle_cpu_spike ⟨80, "test-container"⟩ "t" 95
        (AnalyzeOutcome.api "c") false).1 = false ∧
      Event.notifyCall (analyze_logs (AnalyzeOutcome.api "c"))
          failureAction ∈
        (handle_cpu_spike ⟨80, "test-container"⟩ "t" 95
          (AnalyzeOutcome.api "c") false).2 ∧
      Event.logIncident (analyze_logs (AnalyzeOutcome.api "c"))
          failureAction 95 ∈
        (handle_cpu_spike ⟨80, "test-container"⟩ "t" 95
          (AnalyzeOutcome.api "c") false).2 ∧
      (∀ c a q, Event.logIncident c a q ∈
          (handle_cpu_spike ⟨80, "test-container"⟩ "t" 95
            (AnalyzeOutcome.api "c") false).2 →
        c = analyze_logs (AnalyzeOutcome.api "c") ∧ a = failureAction ∧
          q = 95) ∧
      ((handle_cpu_spike ⟨80, "test-container"⟩ "t" 95
          (AnalyzeOutcome.api "c") false).2.countP isLogIncidentEv) = 1 ∧
      containsText failureAction "manual intervention required" ∧
      Event.publishStatus (update_ui_data ⟨80, "test-container"⟩ true "t"
          [("status", JVal.str "Intervention Needed"),
           ("cpu_usage", JVal.num 95)]) ∈
        (handle_cpu_spike ⟨80, "test-container"⟩ "t" 95
          (AnalyzeOutcome.api "c") false).2 ∧
      ∀ (st : LoopState) (inputs : List CycleInput),
        (continuous_monitoring ⟨80, "test-container"⟩ st inputs).2.length =
          inputs.length :=
  c4_theorem ⟨80, "test-container"⟩ "t" 95 (AnalyzeOutcome.api "c")
